import Mathlib

set_option autoImplicit false

/-!
Shallow embedding of the power-spectrum fitting core of TurbuStat
(`turbustat/statistics/base_pspec2.py` and the break-point heuristic in
`turbustat/statistics/dendrograms/dendro_stats.py`).

Floating-point values are modelled as rationals.  External numerical
collaborators (numpy transcendentals, the `Lm_Seg` segmented fitter, the
statsmodels OLS/WLS fitters, scipy's smoothing spline, and the elliptical
power-law fitter) are oracle parameters: the embedded control flow reads
only the fields of their results that the Python code reads.
-/

namespace TurbuStat

/-- Modelled from the spec: `clip_func` from `fitting_utils.py` is not among
the provided sources; the spec states the selection is true iff
`low_cut ≤ freq ≤ high_cut`. -/
def clip_func (v lo hi : ℚ) : Bool :=
  decide (lo ≤ v) && decide (v ≤ hi)

/-- Numpy boolean-mask indexing `vals[clip_func(freqs, lo, hi)]`: keep the
entries of `vals` whose matching entry of `freqs` passes the clip. -/
def clipSelect (freqs vals : List ℚ) (lo hi : ℚ) : List ℚ :=
  (freqs.zip vals).filterMap
    (fun p => if clip_func p.1 lo hi then some p.2 else none)

/-- A statsmodels regression-result object, reduced to the two fields
`fit_pspec` reads: `params` and `bse`. -/
structure OlsFit where
  params : List ℚ
  bse : List ℚ
deriving Repr, DecidableEq

/-- Result of the external `Lm_Seg` segmented fitter (`lm_seg.py` is an
external collaborator here): only the fields `fit_pspec` reads are kept. -/
structure LmSegResult where
  paramsSize : ℕ
  brk : ℚ
  brkErr : ℚ
  slopes : List ℚ
  slopeErrs : List ℚ
  fit : OlsFit
deriving Repr, DecidableEq

/-- External numerical collaborators of `fit_pspec`: numpy's `log10` and
`10 ** ·`, the constant `np.log(10)`, `Lm_Seg`, and the statsmodels OLS and
WLS fitters (`wlsFit` takes the design, the data and the weights).  The
embedding is parametric over them; `fit_pspec`'s own control flow never
inspects their internals. -/
structure Externals where
  log10 : ℚ → ℚ
  pow10 : ℚ → ℚ
  ln10 : ℚ
  lmSeg : List ℚ → List ℚ → ℚ → LmSegResult
  olsFit : List ℚ → List ℚ → OlsFit
  wlsFit : List ℚ → List ℚ → List ℚ → OlsFit

/-- `self._slope` is a scalar after an unbroken fit and an array after an
accepted break fit. -/
inductive SlopeVal where
  | scalar (v : ℚ)
  | vec (vs : List ℚ)
deriving Repr, DecidableEq

/-- The two non-fatal warnings `fit_pspec` can record. -/
inductive WarnMsg where
  | notEnoughPts
  | brkFitFailed
deriving Repr, DecidableEq

/-- The two `ValueError`s `fit_pspec` can raise. -/
inductive FitError where
  | incompatibleOptions
  | missingStddev
deriving Repr, DecidableEq

/-- Object attributes written by `fit_pspec`. -/
structure FitState where
  brk : Option ℚ
  brk_err : Option ℚ
  slope : SlopeVal
  slope_err : SlopeVal
  fit : OlsFit
  warnings : List WarnMsg
deriving Repr, DecidableEq

/-- Lines 214–225 of `base_pspec2.py`: the unbroken power-law fit run
whenever `self.brk` ends up `None`; statsmodels receives the constant-added
design, and the weighted branch passes `1 / y_err ** 2` as weights.  The
slope and its error are entry 1 of the fit result.  `prevBrkErr` is what
`self._brk_err` holds at this point (the code only reassigns it on the
`brk is None` input path and on an accepted break). -/
def unbrokenFit (ext : Externals) (x y y_err : List ℚ) (weighted : Bool)
    (prevBrkErr : Option ℚ) (ws : List WarnMsg) : FitState :=
  let fit := if weighted then ext.wlsFit x y (y_err.map (fun e => 1 / e ^ 2))
             else ext.olsFit x y
  { brk := none
    brk_err := prevBrkErr
    slope := SlopeVal.scalar (fit.params.getD 1 0)
    slope_err := SlopeVal.scalar (fit.bse.getD 1 0)
    fit := fit
    warnings := ws }

/-- `x = np.log10(self.freqs[clip_func(...)])` (line 148). -/
def fitX (ext : Externals) (freqs : List ℚ) (lo hi : ℚ) : List ℚ :=
  (clipSelect freqs freqs lo hi).map ext.log10

/-- `y = np.log10(self.ps1D[clip_func(...)])` (line 150). -/
def fitY (ext : Externals) (freqs ps1D : List ℚ) (lo hi : ℚ) : List ℚ :=
  (clipSelect freqs ps1D lo hi).map ext.log10

/-- Lines 170–177: a break guess given in linear units is log-transformed;
one given with `log_break` is used as is. -/
def brkLog (ext : Externals) (log_break : Bool) (b0 : ℚ) : ℚ :=
  if log_break then b0 else ext.log10 b0

/-- `fit_pspec` (`base_pspec2.py` lines 134–225) after the unit handling:
`freqs`, `ps1D`, `ps1D_stddev` are the 1D radial-profile arrays, `low_cut`
and `high_cut` the pixel-frequency limits, `brk` the optional break guess
already converted to pixel frequency (`log_break` tells whether it is
already a log10 value), `stddev_flag` the object's `_stddev_flag`, and
`prevBrkErr` the object's `_brk_err` attribute before the call. -/
def fitPspec (ext : Externals) (freqs ps1D ps1D_stddev : List ℚ)
    (stddev_flag : Bool) (brk : Option ℚ) (log_break : Bool)
    (low_cut high_cut : ℚ) (min_fits_pts : ℕ) (weighted_fit : Bool)
    (prevBrkErr : Option ℚ) : Except FitError FitState :=
  let x := fitX ext freqs low_cut high_cut
  let y := fitY ext freqs ps1D low_cut high_cut
  if weighted_fit && brk.isSome then
    Except.error FitError.incompatibleOptions
  else if weighted_fit && !stddev_flag then
    Except.error FitError.missingStddev
  else
    let y_err := if weighted_fit then
        (clipSelect freqs ps1D_stddev low_cut high_cut).map ext.log10
      else []
    match brk with
    | some b0 =>
      let b := brkLog ext log_break b0
      let r := ext.lmSeg x y b
      if r.paramsSize = 5 then
        if x.countP (fun v => decide (v < r.brk)) < min_fits_pts then
          Except.ok (unbrokenFit ext x y y_err weighted_fit prevBrkErr
            [WarnMsg.notEnoughPts])
        else
          Except.ok
            { brk := some (ext.pow10 r.brk)
              brk_err := some (ext.ln10 * ext.pow10 r.brk * r.brkErr)
              slope := SlopeVal.vec r.slopes
              slope_err := SlopeVal.vec r.slopeErrs
              fit := r.fit
              warnings := [] }
      else
        Except.ok (unbrokenFit ext x y y_err weighted_fit prevBrkErr
          [WarnMsg.brkFitFailed])
    | none =>
      Except.ok (unbrokenFit ext x y y_err weighted_fit none [])

/-- `np.argmin(np.abs(knots - t))`: index of the first entry of the list at
minimal absolute distance from `t` (0 on degenerate inputs). -/
def argminAbs (t : ℚ) : List ℚ → ℕ
  | [] => 0
  | k :: rest =>
    if rest = [] then 0
    else
      let r := argminAbs t rest
      if |rest.getD r 0 - t| < |k - t| then r + 1 else 0

/-- `break_spline` (`dendro_stats.py` lines 393–413), taken at the knot list
the external scipy `UnivariateSpline` produced: more than 3 knots pick the
knot nearest the expected value −0.8; exactly 2 knots (no internal knot)
fall back to the first knot; otherwise the sole internal knot `knots[1]`. -/
def break_spline (knots : List ℚ) : ℚ :=
  if 3 < knots.length then knots.getD (argminAbs (-4/5) knots) 0
  else if knots.length = 2 then knots.getD 0 0
  else knots.getD 1 0

/-- Python float modulo (used as `params[2] % np.pi`): the result carries
the divisor's sign, so for a positive divisor it is `a - p * ⌊a / p⌋`. -/
def fmod (a p : ℚ) : ℚ := a - p * (⌊a / p⌋ : ℤ)

/-- Elementwise clip mask over a grid
(`clip_func(freqs_dist, low_cut, high_cut)`). -/
def maskGrid (fd : List (List ℚ)) (lo hi : ℚ) : List (List Bool) :=
  fd.map (fun row => row.map (fun v => clip_func v lo hi))

/-- `np.logical_and` of two boolean grids. -/
def andGrid (a b : List (List Bool)) : List (List Bool) :=
  (a.zip b).map (fun p => (p.1.zip p.2).map (fun q => q.1 && q.2))

/-- `mask.any()`. -/
def anyGrid (m : List (List Bool)) : Bool :=
  m.any (fun row => row.any (fun v => v))

/-- Row-major numpy boolean-mask indexing `grid[mask]`. -/
def selectGrid (grid : List (List ℚ)) (m : List (List Bool)) : List ℚ :=
  ((grid.zip m).map (fun p =>
    (p.1.zip p.2).filterMap (fun q => if q.2 then some q.1 else none))).flatten

/-- `np.nanmax` over a grid (no NaN arises in the rational model). -/
def gridMax (g : List (List ℚ)) : ℚ :=
  g.flatten.foldl max (g.flatten.headD 0)

/-- Result of the external `fit_elliptical_powerlaw`
(`elliptical_powerlaw.py`, outside the provided sources), reduced to the
`params` and `stderrs` arrays that `fit_2Dpspec` reads. -/
structure EplResult where
  params : List ℚ
  stderrs : List ℚ
deriving Repr, DecidableEq

/-- External collaborators of `fit_2Dpspec`: numpy's `log10` and `sqrt`,
the constant `np.pi`, the elliptical power-law fitter, and the two interval
transforms of `elliptical_powerlaw.py` (repository code outside the
provided sources, kept abstract since no branching here inspects their
formulas; `invT a b c` is `inverse_interval_transform(a, b, c)` and
`invTstderr` its error propagation). -/
structure Ext2D where
  log10 : ℚ → ℚ
  sqrt : ℚ → ℚ
  pi : ℚ
  fitEPL : List ℚ → List ℚ → List ℚ → List ℚ → Bool → ℕ → Bool → Bool →
    EplResult
  invT : ℚ → ℚ → ℚ → ℚ
  invTstderr : ℚ → ℚ → ℚ → ℚ → ℚ

/-- `freqs_dist = np.sqrt(yy_freq ** 2 + xx_freq ** 2)` elementwise. -/
def freqsDist (ext : Ext2D) (yy xx : List (List ℚ)) : List (List ℚ) :=
  (yy.zip xx).map
    (fun p => (p.1.zip p.2).map (fun q => ext.sqrt (q.1 ^ 2 + q.2 ^ 2)))

/-- The fit mask of `fit_2Dpspec` (lines 346–353): clip of the radial
frequency distances, intersected with the stored azimuthal mask when the
object has one and `use_azimmask` is set. -/
def effMask (ext : Ext2D) (yy xx : List (List ℚ))
    (azim : Option (List (List Bool))) (use_azimmask : Bool)
    (lo hi : ℚ) : List (List Bool) :=
  let m := maskGrid (freqsDist ext yy xx) lo hi
  match azim, use_azimmask with
  | some am, true => andGrid m am
  | _, _ => m

/-- Initial-parameter selection of `fit_2Dpspec` (lines 359–375): an empty
`p0` is replaced by a guess seeded from the 1D fit when the object has one
(array slopes use entry 0), else slope −2 and the log of the spectrum's
peak; always `theta = pi / 2` and `ellip_conv = 0`. -/
def choose_p0 (ext : Ext2D) (grid : List (List ℚ)) (p0 : List ℚ)
    (slope1D : Option (SlopeVal × ℚ)) : List ℚ :=
  if p0.length = 0 then
    match slope1D with
    | some (sv, amp) =>
      let sg := match sv with
        | SlopeVal.vec vs => vs.getD 0 0
        | SlopeVal.scalar s => s
      [amp, 0, ext.pi / 2, sg]
    | none => [ext.log10 (gridMax grid), 0, ext.pi / 2, -2]
  else p0

/-- The `ValueError` of `fit_2Dpspec` when the mask removes every point. -/
inductive Fit2DError where
  | emptySelection
deriving Repr, DecidableEq

/-- The single non-fatal warning `fit_2Dpspec` can record. -/
inductive Warn2D where
  | isotropy
deriving Repr, DecidableEq

/-- Object attributes written by `fit_2Dpspec`, together with the stored 2D
spectrum `_ps2D` that the call only reads. -/
structure PSpecObj2D where
  ps2Dstored : List (List ℚ)
  slope2D : ℚ
  slope2D_err : ℚ
  theta2D : ℚ
  theta2D_err : ℚ
  ellip2D : ℚ
  ellip2D_err : ℚ
  warnings2D : List Warn2D
deriving Repr, DecidableEq

/-- The elliptical power-law fit call of `fit_2Dpspec` (lines 377–385):
the external fitter applied to the masked log spectrum, the masked
frequency grids, and the chosen initial parameters; its result record
holds the raw fitted `params` and `stderrs`. -/
def eplFit (ext : Ext2D) (grid yy xx : List (List ℚ))
    (azim : Option (List (List Bool))) (use_azimmask : Bool) (p0 : List ℚ)
    (slope1D : Option (SlopeVal × ℚ)) (lo hi : ℚ) (bootstrap : Bool)
    (niters : ℕ) (radial_weighting fix_ellip_params : Bool) : EplResult :=
  let mask := effMask ext yy xx azim use_azimmask lo hi
  ext.fitEPL ((selectGrid grid mask).map ext.log10) (selectGrid xx mask)
    (selectGrid yy mask) (choose_p0 ext grid p0 slope1D) bootstrap niters
    radial_weighting fix_ellip_params

/-- Lines 346–407 of `fit_2Dpspec`, with `grid` standing for every read of
the `ps2D` property inside the call: mask construction and the empty-mask
check precede the elliptical fit; after the fit come the parameter stores,
the `% np.pi` orientation reduction, the ellipticity back-transform, and
the isotropy advisory for `ellip2D > 0.97`. -/
def fit2DCore (ext : Ext2D) (o : PSpecObj2D) (grid : List (List ℚ))
    (yy xx : List (List ℚ)) (azim : Option (List (List Bool)))
    (use_azimmask : Bool) (p0 : List ℚ) (slope1D : Option (SlopeVal × ℚ))
    (lo hi : ℚ) (bootstrap : Bool) (niters : ℕ)
    (radial_weighting fix_ellip_params : Bool) :
    Except Fit2DError PSpecObj2D :=
  let mask := effMask ext yy xx azim use_azimmask lo hi
  if !anyGrid mask then Except.error Fit2DError.emptySelection
  else
    let r := eplFit ext grid yy xx azim use_azimmask p0 slope1D lo hi
      bootstrap niters radial_weighting fix_ellip_params
    let ellip := ext.invT (r.params.getD 1 0) 0 1
    Except.ok
      { o with
        slope2D := r.params.getD 3 0
        slope2D_err := r.stderrs.getD 3 0
        theta2D := fmod (r.params.getD 2 0) ext.pi
        theta2D_err := r.stderrs.getD 2 0
        ellip2D := ellip
        ellip2D_err := ext.invTstderr (r.stderrs.getD 1 0) (r.params.getD 1 0)
          0 1
        warnings2D := if 97 / 100 < ellip then [Warn2D.isotropy] else [] }

/-- The `ps2D` property (lines 23–28): the stored `_ps2D` reversed along
its first axis. -/
def ps2D (o : PSpecObj2D) : List (List ℚ) := o.ps2Dstored.reverse

/-- `fit_2Dpspec`: every access to the 2D spectrum inside the call goes
through the `ps2D` property, i.e. the row-reversed view of the stored
grid. -/
def fit2Dpspec (ext : Ext2D) (o : PSpecObj2D) (yy xx : List (List ℚ))
    (azim : Option (List (List Bool))) (use_azimmask : Bool) (p0 : List ℚ)
    (slope1D : Option (SlopeVal × ℚ)) (lo hi : ℚ) (bootstrap : Bool)
    (niters : ℕ) (radial_weighting fix_ellip_params : Bool) :
    Except Fit2DError PSpecObj2D :=
  fit2DCore ext o (ps2D o) yy xx azim use_azimmask p0 slope1D lo hi
    bootstrap niters radial_weighting fix_ellip_params

/-- Tuple returned by the external `pspec` routine of `psds.py` (outside
the provided sources), with every optional component present. -/
structure PspecOut where
  freqs : List ℚ
  ps1D : List ℚ
  stddev : List ℚ
  azim : List (List Bool)
deriving Repr, DecidableEq

/-- Object attributes touched by `compute_radial_pspec` and read by the
radial-profile accessors; `none` in an `Option` field means the Python
attribute was never assigned. -/
structure RadialObj where
  freqs : List ℚ
  ps1D : List ℚ
  ps1D_stddev : Option (List ℚ)
  stddev_flag : Bool
  azim_mask : Option (List (List Bool))
  azim_flag : Bool
deriving Repr, DecidableEq

/-- `compute_radial_pspec` (lines 59–97): stores the external `pspec`
output, records `_stddev_flag := return_stddev`, and assigns
`_ps1D_stddev` only when `return_stddev` is set — otherwise leaving that
attribute exactly as it was (same for the azimuthal mask). -/
def computeRadialPspec (o : RadialObj) (out : PspecOut)
    (return_stddev theta0given : Bool) : RadialObj :=
  { o with
    freqs := out.freqs
    ps1D := out.ps1D
    stddev_flag := return_stddev
    azim_flag := theta0given
    ps1D_stddev := if return_stddev then some out.stddev else o.ps1D_stddev
    azim_mask := if theta0given then some out.azim else o.azim_mask }

/-- Python's `AttributeError` for reading a never-assigned attribute. -/
inductive AttrError where
  | unset
deriving Repr, DecidableEq

/-- Outcome of reading the `ps1D_stddev` property: whether the non-fatal
warning fired, and the returned value or the raised `AttributeError`. -/
structure StddevAccess where
  warned : Bool
  value : Except AttrError (List ℚ)
deriving Repr

/-- The `ps1D_stddev` property (lines 37–46): warn when `_stddev_flag` is
off, then still return the stored `_ps1D_stddev`; reading it while unset
raises `AttributeError`. -/
def ps1D_stddev_get (o : RadialObj) : StddevAccess :=
  { warned := !o.stddev_flag
    value := match o.ps1D_stddev with
      | none => Except.error AttrError.unset
      | some v => Except.ok v }

/-- `brk_fit = Lm_Seg(x, y, brk)` (lines 179–181): the segmented-fit result
on the clipped log-log data. -/
def brkFit (ext : Externals) (freqs ps1D : List ℚ) (log_break : Bool)
    (b0 : ℚ) (lo hi : ℚ) : LmSegResult :=
  ext.lmSeg (fitX ext freqs lo hi) (fitY ext freqs ps1D lo hi)
    (brkLog ext log_break b0)

/-- `sum(x < brk_fit.brk)` (line 186): how many fitted points lie strictly
below the fitted break. -/
def belowCount (ext : Externals) (freqs ps1D : List ℚ) (log_break : Bool)
    (b0 : ℚ) (lo hi : ℚ) : ℕ :=
  (fitX ext freqs lo hi).countP
    (fun v => decide (v < (brkFit ext freqs ps1D log_break b0 lo hi).brk))

/-- C2: for every input spectrum and every choice of the external fitting
oracles, calling `fit_pspec` with `weighted_fit = True` and a break guess
raises the incompatible-options `ValueError`; the outcome is this error
whatever the oracles would have returned, so no model fit is attempted and
no fit result is stored. -/
theorem fitPspec_weighted_brk_incompatible (ext : Externals)
    (freqs ps1D ps1D_stddev : List ℚ) (stddev_flag : Bool) (b : ℚ)
    (log_break : Bool) (low_cut high_cut : ℚ) (min_fits_pts : ℕ)
    (prevBrkErr : Option ℚ) :
    fitPspec ext freqs ps1D ps1D_stddev stddev_flag (some b) log_break
        low_cut high_cut min_fits_pts true prevBrkErr =
      Except.error FitError.incompatibleOptions := by
  simp [fitPspec]

/-- Concrete external oracles exhibiting the weighted-fit weight: `log10`
agrees with the real base-10 logarithm at 100, and the WLS oracle records
the weights it was handed in its result fields. -/
def ext3 : Externals :=
  { log10 := fun v => if v = 100 then 2 else v
    pow10 := id
    ln10 := 1
    lmSeg := fun _ _ _ => ⟨0, 0, 0, [], [], ⟨[], []⟩⟩
    olsFit := fun _ _ => ⟨[], []⟩
    wlsFit := fun _ _ w => ⟨w, w⟩ }

/-- C3 fails in the code: with a single radial bin of recorded scatter 100
inside the fit range, the weighted fit hands WLS the weight
`1 / log10(100)^2 = 1/4`, not the inverse variance `1 / 100^2 = 1/10000`
promised by the docstring and the spec. -/
theorem fitPspec_weight_is_not_inverse_variance :
    ∃ st : FitState,
      fitPspec ext3 [1] [10] [100] true none false 0 5 0 true none =
          Except.ok st ∧
        st.fit.params = [1 / 4] ∧ (1 / 4 : ℚ) ≠ 1 / 100 ^ 2 := by
  refine ⟨_, rfl, rfl, by norm_num⟩

/-- C9: after `compute_radial_pspec` ran with `return_stddev = False`,
reading `ps1D_stddev` warns but still returns the stored attribute: it
raises `AttributeError` when the standard deviation was never computed in
any prior call, and silently yields the stale value from an earlier
`return_stddev = True` call otherwise. -/
theorem ps1D_stddev_after_disabled (o : RadialObj) (out : PspecOut)
    (theta0given : Bool) :
    (ps1D_stddev_get (computeRadialPspec o out false theta0given)).warned =
        true ∧
      (o.ps1D_stddev = none →
        (ps1D_stddev_get
            (computeRadialPspec o out false theta0given)).value =
          Except.error AttrError.unset) ∧
      ∀ v : List ℚ, o.ps1D_stddev = some v →
        (ps1D_stddev_get
            (computeRadialPspec o out false theta0given)).value =
          Except.ok v := by
  refine ⟨rfl, fun h => ?_, fun v h => ?_⟩ <;>
    simp [ps1D_stddev_get, computeRadialPspec, h]

/-- C9 witness: a `return_stddev = True` call stores the scatter `[5]`, a
later `return_stddev = False` call leaves it stale; the accessor then warns
yet returns the stale `[5]`. -/
theorem ps1D_stddev_after_disabled_witness :
    (ps1D_stddev_get (computeRadialPspec
          (computeRadialPspec ⟨[], [], none, false, none, false⟩
            ⟨[1], [2], [5], []⟩ true false)
          ⟨[9], [9], [7], []⟩ false false)).warned = true ∧
      (ps1D_stddev_get (computeRadialPspec
          (computeRadialPspec ⟨[], [], none, false, none, false⟩
            ⟨[1], [2], [5], []⟩ true false)
          ⟨[9], [9], [7], []⟩ false false)).value = Except.ok [5] :=
  ⟨(ps1D_stddev_after_disabled
      (computeRadialPspec ⟨[], [], none, false, none, false⟩
        ⟨[1], [2], [5], []⟩ true false) ⟨[9], [9], [7], []⟩ false).1,
    (ps1D_stddev_after_disabled
      (computeRadialPspec ⟨[], [], none, false, none, false⟩
        ⟨[1], [2], [5], []⟩ true false) ⟨[9], [9], [7], []⟩ false).2.2
      [5] rfl⟩

/-- C4: when the two-segment fit converges to the full 5-parameter model
(break fitting is only reachable unweighted), `fit_pspec` accepts the break
exactly when at least `min_fits_pts` fitted points lie strictly below the
fitted break; with fewer, the break is discarded with a recorded warning
and the unbroken model is re-fit on the full clipped range — in both cases
the call returns normally rather than raising. -/
theorem fitPspec_break_acceptance (ext : Externals)
    (freqs ps1D ps1D_stddev : List ℚ) (stddev_flag : Bool) (b0 : ℚ)
    (log_break : Bool) (lo hi : ℚ) (min_fits_pts : ℕ)
    (prevBrkErr : Option ℚ)
    (h5 : (brkFit ext freqs ps1D log_break b0 lo hi).paramsSize = 5) :
    (min_fits_pts ≤ belowCount ext freqs ps1D log_break b0 lo hi →
      fitPspec ext freqs ps1D ps1D_stddev stddev_flag (some b0) log_break
          lo hi min_fits_pts false prevBrkErr = Except.ok
        { brk :=
            some (ext.pow10 (brkFit ext freqs ps1D log_break b0 lo hi).brk)
          brk_err := some (ext.ln10 *
            ext.pow10 (brkFit ext freqs ps1D log_break b0 lo hi).brk *
            (brkFit ext freqs ps1D log_break b0 lo hi).brkErr)
          slope :=
            SlopeVal.vec (brkFit ext freqs ps1D log_break b0 lo hi).slopes
          slope_err :=
            SlopeVal.vec (brkFit ext freqs ps1D log_break b0 lo hi).slopeErrs
          fit := (brkFit ext freqs ps1D log_break b0 lo hi).fit
          warnings := [] }) ∧
      (belowCount ext freqs ps1D log_break b0 lo hi < min_fits_pts →
        fitPspec ext freqs ps1D ps1D_stddev stddev_flag (some b0) log_break
            lo hi min_fits_pts false prevBrkErr = Except.ok
          (unbrokenFit ext (fitX ext freqs lo hi)
            (fitY ext freqs ps1D lo hi) [] false prevBrkErr
            [WarnMsg.notEnoughPts]) ∧
        (unbrokenFit ext (fitX ext freqs lo hi)
            (fitY ext freqs ps1D lo hi) [] false prevBrkErr
            [WarnMsg.notEnoughPts]).brk = none ∧
        WarnMsg.notEnoughPts ∈ (unbrokenFit ext (fitX ext freqs lo hi)
            (fitY ext freqs ps1D lo hi) [] false prevBrkErr
            [WarnMsg.notEnoughPts]).warnings) := by
  simp only [belowCount, brkFit] at h5 ⊢
  constructor
  · intro hge
    have hnlt := not_lt.mpr hge
    simp [fitPspec, h5, hnlt]
  · intro hlt
    refine ⟨?_, rfl, by simp [unbrokenFit]⟩
    simp [fitPspec, h5, hlt]

/-- External oracles whose segmented fitter always converges to a
5-parameter model with break 2, used to run the break-acceptance path on
concrete data. -/
def extC4 : Externals :=
  { log10 := id
    pow10 := id
    ln10 := 1
    lmSeg := fun _ _ _ => ⟨5, 2, 1, [1, 2], [0, 0], ⟨[9, 8], [1, 1]⟩⟩
    olsFit := fun _ _ => ⟨[0, 7], [0, 1]⟩
    wlsFit := fun _ _ _ => ⟨[], []⟩ }

/-- C4 witness: on `x = [1, 2, 3]` with fitted break 2 and
`min_fits_pts = 1`, exactly one point lies below the break, so the break is
accepted and stored. -/
theorem fitPspec_break_acceptance_witness :
    fitPspec extC4 [1, 2, 3] [1, 1, 1] [] true (some 2) false 0 10 1 false
        none = Except.ok
      { brk := some 2
        brk_err := some 2
        slope := SlopeVal.vec [1, 2]
        slope_err := SlopeVal.vec [0, 0]
        fit := ⟨[9, 8], [1, 1]⟩
        warnings := [] } := by
  have h := (fitPspec_break_acceptance extC4 [1, 2, 3] [1, 1, 1] [] true 2
    false 0 10 1 none rfl).1 (by
      have hbc : belowCount extC4 [1, 2, 3] [1, 1, 1] false 2 0 10 = 1 := rfl
      omega)
  exact h.trans (by norm_num [extC4, brkFit, fitX, fitY, brkLog])

/-- External oracles whose segmented fitter converges to a 5-parameter
model whose break, 10, lies above every fitted point. -/
def extC1 : Externals :=
  { log10 := id
    pow10 := id
    ln10 := 1
    lmSeg := fun _ _ _ => ⟨5, 10, 0, [1, 2], [0, 0], ⟨[3], [1]⟩⟩
    olsFit := fun _ _ => ⟨[0, 7], [0, 1]⟩
    wlsFit := fun _ _ _ => ⟨[], []⟩ }

/-- C1 as stated is false on the code: here the two-segment fit succeeds
(5 parameters) with fitted break 10, zero of the three fitted points lie
beyond (above) the break — fewer than `min_fits_pts = 1` — yet `fit_pspec`
keeps the break (`some 10`), records no warning, and does not fall back to
the unbroken model: the code counts the points *below* the break. -/
theorem fitPspec_beyond_break_counterexample :
    (brkFit extC1 [1, 2, 3] [1, 1, 1] false 2 0 5).paramsSize = 5 ∧
      (fitX extC1 [1, 2, 3] 0 5).countP (fun v => decide
        ((brkFit extC1 [1, 2, 3] [1, 1, 1] false 2 0 5).brk < v)) < 1 ∧
      fitPspec extC1 [1, 2, 3] [1, 1, 1] [] true (some 2) false 0 5 1 false
          none = Except.ok
        { brk := some 10
          brk_err := some 0
          slope := SlopeVal.vec [1, 2]
          slope_err := SlopeVal.vec [0, 0]
          fit := ⟨[3], [1]⟩
          warnings := [] } := by
  refine ⟨rfl, ?_, ?_⟩
  · have h : (fitX extC1 [1, 2, 3] 0 5).countP (fun v => decide
        ((brkFit extC1 [1, 2, 3] [1, 1, 1] false 2 0 5).brk < v)) = 0 := rfl
    omega
  · with_unfolding_all rfl

/-- C1 (amended): for every profile and supplied break guess, if the
two-segment fit succeeds but fewer than `min_fits_pts` samples lie *below*
the fitted break, `fit_pspec` discards the break (break set to `None`),
records a non-fatal warning, and falls back to re-fitting the single
unbroken power law on the full clipped range instead of failing. -/
theorem fitPspec_break_fallback (ext : Externals)
    (freqs ps1D ps1D_stddev : List ℚ) (stddev_flag : Bool) (b0 : ℚ)
    (log_break : Bool) (lo hi : ℚ) (min_fits_pts : ℕ)
    (prevBrkErr : Option ℚ)
    (h5 : (brkFit ext freqs ps1D log_break b0 lo hi).paramsSize = 5)
    (hlt : belowCount ext freqs ps1D log_break b0 lo hi < min_fits_pts) :
    fitPspec ext freqs ps1D ps1D_stddev stddev_flag (some b0) log_break
        lo hi min_fits_pts false prevBrkErr = Except.ok
      (unbrokenFit ext (fitX ext freqs lo hi) (fitY ext freqs ps1D lo hi)
        [] false prevBrkErr [WarnMsg.notEnoughPts]) ∧
      (unbrokenFit ext (fitX ext freqs lo hi) (fitY ext freqs ps1D lo hi)
        [] false prevBrkErr [WarnMsg.notEnoughPts]).brk = none ∧
      WarnMsg.notEnoughPts ∈ (unbrokenFit ext (fitX ext freqs lo hi)
        (fitY ext freqs ps1D lo hi) [] false prevBrkErr
        [WarnMsg.notEnoughPts]).warnings := by
  simp only [belowCount, brkFit] at h5 hlt
  refine ⟨?_, rfl, by simp [unbrokenFit]⟩
  simp [fitPspec, h5, hlt]

/-- C1 (amended) witness: with fitted break 2, only one of `x = [1, 2, 3]`
lies below it, fewer than `min_fits_pts = 5`; the break is dropped, the
warning recorded, and the unbroken model fit on the full clipped range. -/
theorem fitPspec_break_fallback_witness :
    fitPspec extC4 [1, 2, 3] [1, 1, 1] [] true (some 2) false 0 10 5 false
        none = Except.ok
      { brk := none
        brk_err := none
        slope := SlopeVal.scalar 7
        slope_err := SlopeVal.scalar 1
        fit := ⟨[0, 7], [0, 1]⟩
        warnings := [WarnMsg.notEnoughPts] } := by
  have h := (fitPspec_break_fallback extC4 [1, 2, 3] [1, 1, 1] [] true 2
    false 0 10 5 none rfl (by
      have hbc : belowCount extC4 [1, 2, 3] [1, 1, 1] false 2 0 10 = 1 := rfl
      omega)).1
  exact h.trans (by norm_num [extC4, unbrokenFit, fitX, fitY])

/-- `fmod` with a nonzero divisor is the divisor times the fractional part
of the quotient. -/
theorem fmod_eq_mul_fract (a p : ℚ) (hp : p ≠ 0) :
    fmod a p = p * Int.fract (a / p) := by
  rw [fmod, Int.fract, mul_sub, mul_comm p (a / p), div_mul_cancel₀ a hp]

/-- Python float modulo with a positive divisor is nonnegative. -/
theorem fmod_nonneg (a p : ℚ) (hp : 0 < p) : 0 ≤ fmod a p := by
  rw [fmod_eq_mul_fract a p hp.ne']
  exact mul_nonneg hp.le (Int.fract_nonneg _)

/-- Python float modulo with a positive divisor is below the divisor. -/
theorem fmod_lt (a p : ℚ) (hp : 0 < p) : fmod a p < p := by
  rw [fmod_eq_mul_fract a p hp.ne']
  calc p * Int.fract (a / p) < p * 1 :=
        mul_lt_mul_of_pos_left (Int.fract_lt_one _) hp
    _ = p := mul_one p

/-- `fmod` changes its argument by an integer multiple of the divisor. -/
theorem sub_fmod_eq_int_mul (a p : ℚ) :
    a - fmod a p = (⌊a / p⌋ : ℤ) * p := by
  rw [fmod]; ring

/-- C6: the raw orientation angle produced by the 2D elliptical fit is its
result's `params[2]`, and the stored `theta2D` is exactly that raw angle
reduced `% np.pi`: with the external constant `pi` positive, `theta2D`
satisfies `0 ≤ theta2D < pi` and differs from the raw fitted angle by an
integer multiple of `pi`. -/
theorem fit2Dpspec_theta_congruent (ext : Ext2D) (o o' : PSpecObj2D)
    (yy xx : List (List ℚ)) (azim : Option (List (List Bool)))
    (use_azimmask : Bool) (p0 : List ℚ) (slope1D : Option (SlopeVal × ℚ))
    (lo hi : ℚ) (bootstrap : Bool) (niters : ℕ)
    (radial_weighting fix_ellip_params : Bool) (hpi : 0 < ext.pi)
    (h : fit2Dpspec ext o yy xx azim use_azimmask p0 slope1D lo hi bootstrap
      niters radial_weighting fix_ellip_params = Except.ok o') :
    o'.theta2D = fmod ((eplFit ext (ps2D o) yy xx azim use_azimmask p0
        slope1D lo hi bootstrap niters radial_weighting
        fix_ellip_params).params.getD 2 0) ext.pi ∧
      0 ≤ o'.theta2D ∧ o'.theta2D < ext.pi ∧
      ∃ k : ℤ, (eplFit ext (ps2D o) yy xx azim use_azimmask p0 slope1D lo
          hi bootstrap niters radial_weighting
          fix_ellip_params).params.getD 2 0 - o'.theta2D = k * ext.pi := by
  simp only [fit2Dpspec, fit2DCore] at h
  split at h
  · simp at h
  · injection h with h2
    subst h2
    exact ⟨rfl, fmod_nonneg _ _ hpi, fmod_lt _ _ hpi,
      ⟨_, sub_fmod_eq_int_mul _ ext.pi⟩⟩

/-- C5: for every cutoff pair, with or without an azimuthal mask, whenever
the frequency mask `fit_2Dpspec` builds selects zero pixels the call raises
the empty-selection `ValueError`; it does so for every choice of the
fitting oracle, i.e. before any nonlinear fitting happens. -/
theorem fit2Dpspec_empty_mask (ext : Ext2D) (o : PSpecObj2D)
    (yy xx : List (List ℚ)) (azim : Option (List (List Bool)))
    (use_azimmask : Bool) (p0 : List ℚ) (slope1D : Option (SlopeVal × ℚ))
    (lo hi : ℚ) (bootstrap : Bool) (niters : ℕ)
    (radial_weighting fix_ellip_params : Bool)
    (h : anyGrid (effMask ext yy xx azim use_azimmask lo hi) = false) :
    fit2Dpspec ext o yy xx azim use_azimmask p0 slope1D lo hi bootstrap
      niters radial_weighting fix_ellip_params =
      Except.error Fit2DError.emptySelection := by
  simp [fit2Dpspec, fit2DCore, h]

/-- Membership in the advisory list produced by the threshold check. -/
theorem isotropy_mem_iff (e : ℚ) :
    Warn2D.isotropy ∈ (if 97 / 100 < e then [Warn2D.isotropy] else []) ↔
      97 / 100 < e := by
  by_cases h : (97 : ℚ) / 100 < e <;> simp [h]

/-- C7: after every successful `fit_2Dpspec`, the non-fatal isotropy
advisory is recorded iff the transformed ellipticity stored on the returned
object exceeds 0.97; the warning list is exactly that advisory, and the
fitted parameters are stored on the returned object in either case. -/
theorem fit2Dpspec_isotropy_warning (ext : Ext2D) (o o' : PSpecObj2D)
    (yy xx : List (List ℚ)) (azim : Option (List (List Bool)))
    (use_azimmask : Bool) (p0 : List ℚ) (slope1D : Option (SlopeVal × ℚ))
    (lo hi : ℚ) (bootstrap : Bool) (niters : ℕ)
    (radial_weighting fix_ellip_params : Bool)
    (h : fit2Dpspec ext o yy xx azim use_azimmask p0 slope1D lo hi bootstrap
      niters radial_weighting fix_ellip_params = Except.ok o') :
    (Warn2D.isotropy ∈ o'.warnings2D ↔ 97 / 100 < o'.ellip2D) ∧
      o'.warnings2D =
        (if 97 / 100 < o'.ellip2D then [Warn2D.isotropy] else []) := by
  simp only [fit2Dpspec, fit2DCore] at h
  split at h
  · simp at h
  · injection h with h2
    subst h2
    exact ⟨isotropy_mem_iff _, rfl⟩

/-- C10: the `ps2D` property is the stored grid reversed along its first
axis — element `[i][j]` of the view is element `[rows − 1 − i][j]` of the
stored grid; `fit_2Dpspec` runs entirely on this reversed view (it equals
the core routine applied to `_ps2D` reversed); and a successful call leaves
the stored grid unchanged on the returned object. -/
theorem ps2D_reversed_view (ext : Ext2D) (o : PSpecObj2D)
    (yy xx : List (List ℚ)) (azim : Option (List (List Bool)))
    (use_azimmask : Bool) (p0 : List ℚ) (slope1D : Option (SlopeVal × ℚ))
    (lo hi : ℚ) (bootstrap : Bool) (niters : ℕ)
    (radial_weighting fix_ellip_params : Bool) :
    (∀ i j : ℕ, i < o.ps2Dstored.length →
      ((ps2D o).getD i []).getD j 0 =
        (o.ps2Dstored.getD (o.ps2Dstored.length - 1 - i) []).getD j 0) ∧
      fit2Dpspec ext o yy xx azim use_azimmask p0 slope1D lo hi bootstrap
          niters radial_weighting fix_ellip_params =
        fit2DCore ext o o.ps2Dstored.reverse yy xx azim use_azimmask p0
          slope1D lo hi bootstrap niters radial_weighting fix_ellip_params ∧
      ∀ o'' : PSpecObj2D,
        fit2Dpspec ext o yy xx azim use_azimmask p0 slope1D lo hi bootstrap
            niters radial_weighting fix_ellip_params = Except.ok o'' →
          o''.ps2Dstored = o.ps2Dstored := by
  refine ⟨?_, rfl, ?_⟩
  · intro i j hi
    have hrow : (ps2D o).getD i [] =
        o.ps2Dstored.getD (o.ps2Dstored.length - 1 - i) [] := by
      rw [ps2D, List.getD_eq_getElem?_getD, List.getElem?_reverse hi,
        ← List.getD_eq_getElem?_getD]
    rw [hrow]
  · intro o'' h
    simp only [fit2Dpspec, fit2DCore] at h
    split at h
    · simp at h
    · injection h with h2
      subst h2
      rfl

/-- Concrete external oracles for the 2D fit: identity transcendentals,
`pi = 3`, and an elliptical fitter returning fixed parameters with raw
orientation 7. -/
def extW : Ext2D :=
  { log10 := id
    sqrt := id
    pi := 3
    fitEPL := fun _ _ _ _ _ _ _ _ => ⟨[1, 0, 7, -3], [0, 0, 0, 0]⟩
    invT := fun a _ _ => a
    invTstderr := fun a _ _ _ => a }

/-- A concrete analysis object holding a stored 2 × 2 spectrum. -/
def oW : PSpecObj2D := ⟨[[1, 2], [3, 4]], 0, 0, 0, 0, 0, 0, []⟩

/-- C5 witness: cutoffs `[0, 1]` against a frequency grid whose only radial
distance is 50 leave an all-false mask, and the call errors out. -/
theorem fit2Dpspec_empty_mask_witness :
    fit2Dpspec extW oW [[5]] [[5]] none false [] none 0 1 true 0 false
        false = Except.error Fit2DError.emptySelection :=
  fit2Dpspec_empty_mask extW oW [[5]] [[5]] none false [] none 0 1 true 0
    false false (by with_unfolding_all rfl)

/-- C6 witness: a fit whose raw orientation `params[2]` is 7 with `pi = 3`
stores `theta2D = 1`, inside `[0, pi)` and congruent to the raw 7 modulo
3. -/
theorem fit2Dpspec_theta_congruent_witness :
    (1 : ℚ) = fmod ((eplFit extW (ps2D oW) [[1, 1], [1, 1]]
        [[1, 1], [1, 1]] none false [] none 0 3 true 0 false
        false).params.getD 2 0) extW.pi ∧
      (0 : ℚ) ≤ 1 ∧ (1 : ℚ) < extW.pi ∧
      ∃ k : ℤ, (eplFit extW (ps2D oW) [[1, 1], [1, 1]] [[1, 1], [1, 1]]
          none false [] none 0 3 true 0 false false).params.getD 2 0 - 1 =
        k * extW.pi :=
  fit2Dpspec_theta_congruent extW oW
    ⟨[[1, 2], [3, 4]], -3, 0, 1, 0, 0, 0, []⟩ [[1, 1], [1, 1]]
    [[1, 1], [1, 1]] none false [] none 0 3 true 0 false false
    (by norm_num [extW]) (by with_unfolding_all rfl)

/-- Oracles whose elliptical fit yields raw ellipticity parameter 0.98
under an identity interval transform. -/
def ext98 : Ext2D :=
  { extW with
    fitEPL := fun _ _ _ _ _ _ _ _ => ⟨[0, 98 / 100, 0, 0], [0, 0, 0, 0]⟩ }

/-- Oracles whose elliptical fit yields raw ellipticity parameter 0.5
under an identity interval transform. -/
def ext50 : Ext2D :=
  { extW with
    fitEPL := fun _ _ _ _ _ _ _ _ => ⟨[0, 1 / 2, 0, 0], [0, 0, 0, 0]⟩ }

/-- C7 witness: a transformed ellipticity of 0.98 records the advisory, one
of 0.5 does not; both runs return stored parameter objects. -/
theorem fit2Dpspec_isotropy_warning_witness :
    Warn2D.isotropy ∈
        (⟨[[1, 2], [3, 4]], 0, 0, 0, 0, 98 / 100, 0, [Warn2D.isotropy]⟩ :
          PSpecObj2D).warnings2D ∧
      Warn2D.isotropy ∉
        (⟨[[1, 2], [3, 4]], 0, 0, 0, 0, 1 / 2, 0, []⟩ :
          PSpecObj2D).warnings2D :=
  ⟨(fit2Dpspec_isotropy_warning ext98 oW
      ⟨[[1, 2], [3, 4]], 0, 0, 0, 0, 98 / 100, 0, [Warn2D.isotropy]⟩
      [[1, 1], [1, 1]] [[1, 1], [1, 1]] none false [] none 0 3 true 0 false
      false (by with_unfolding_all rfl)).1.mpr (by norm_num),
    fun hm => absurd
      ((fit2Dpspec_isotropy_warning ext50 oW
        ⟨[[1, 2], [3, 4]], 0, 0, 0, 0, 1 / 2, 0, []⟩
        [[1, 1], [1, 1]] [[1, 1], [1, 1]] none false [] none 0 3 true 0
        false false (by with_unfolding_all rfl)).1.mp hm) (by norm_num)⟩

/-- C10 witness: on the stored 2 × 2 grid, view element `[0][0]` is stored
element `[1][0]`, and a successful fit returns the stored grid intact. -/
theorem ps2D_reversed_view_witness :
    ((ps2D oW).getD 0 []).getD 0 0 = (oW.ps2Dstored.getD 1 []).getD 0 0 ∧
      (⟨[[1, 2], [3, 4]], -3, 0, 1, 0, 0, 0, []⟩ :
          PSpecObj2D).ps2Dstored = oW.ps2Dstored :=
  ⟨(ps2D_reversed_view extW oW [[1, 1], [1, 1]] [[1, 1], [1, 1]] none false
      [] none 0 3 true 0 false false).1 0 0 (by norm_num [oW]),
    (ps2D_reversed_view extW oW [[1, 1], [1, 1]] [[1, 1], [1, 1]] none false
      [] none 0 3 true 0 false false).2.2 _ (by with_unfolding_all rfl)⟩

/-- The entry `argminAbs` points at is an entry of the list. -/
theorem argminAbs_getD_mem (t : ℚ) : ∀ l : List ℚ, l ≠ [] →
    l.getD (argminAbs t l) 0 ∈ l
  | [], h => absurd rfl h
  | k :: rest, _ => by
    by_cases he : rest = []
    · subst he
      simp [argminAbs]
    · have ih := argminAbs_getD_mem t rest he
      simp only [argminAbs, if_neg he]
      split
      · rw [List.getD_cons_succ]
        exact List.mem_cons_of_mem _ ih
      · rw [List.getD_cons_zero]
        exact List.mem_cons_self _ _

/-- `argminAbs` minimizes the absolute distance to `t` over the list. -/
theorem argminAbs_getD_le (t : ℚ) : ∀ (l : List ℚ) (k : ℚ), k ∈ l →
    |l.getD (argminAbs t l) 0 - t| ≤ |k - t|
  | [], k, hk => absurd hk (List.not_mem_nil k)
  | x :: rest, k, hk => by
    by_cases he : rest = []
    · subst he
      rw [List.mem_singleton] at hk
      subst hk
      simp [argminAbs]
    · have ih := fun (m : ℚ) (hm : m ∈ rest) => argminAbs_getD_le t rest m hm
      simp only [argminAbs, if_neg he]
      rcases List.mem_cons.mp hk with rfl | hk2
      · split
        · rename_i hlt
          rw [List.getD_cons_succ]
          exact le_of_lt hlt
        · rw [List.getD_cons_zero]
      · split
        · rw [List.getD_cons_succ]
          exact ih k hk2
        · rename_i hnlt
          rw [List.getD_cons_zero]
          exact le_trans (not_lt.mp hnlt) (ih k hk2)

/-- C8: `break_spline` on the knot list of the external smoothing spline
returns the knot nearest the expected default −0.8 when there are more
than 3 knots, the first knot (the spline's first x position) when there
are exactly 2 knots, and the sole internal knot `knots[1]` otherwise. -/
theorem break_spline_cases (knots : List ℚ) :
    (3 < knots.length →
      break_spline knots ∈ knots ∧
        ∀ k ∈ knots,
          |break_spline knots - (-4/5)| ≤ |k - (-4/5)|) ∧
      (knots.length = 2 → break_spline knots = knots.getD 0 0) ∧
      (knots.length = 3 → break_spline knots = knots.getD 1 0) := by
  refine ⟨fun h4 => ?_, fun h2 => ?_, fun h3 => ?_⟩
  · have hne : knots ≠ [] := by
      intro he
      rw [he] at h4
      simp at h4
    rw [break_spline, if_pos h4]
    exact ⟨argminAbs_getD_mem _ _ hne,
      fun k hk => argminAbs_getD_le _ _ k hk⟩
  · rw [break_spline, if_neg (by omega), if_pos h2]
  · rw [break_spline, if_neg (by omega), if_neg (by omega)]

/-- C8 witness: four knots pick the knot nearest −0.8, two knots yield the
first knot, three yield the middle one. -/
theorem break_spline_cases_witness :
    (break_spline [-2, -1, 0, 1] ∈ ([-2, -1, 0, 1] : List ℚ) ∧
        |break_spline [-2, -1, 0, 1] - (-4/5)| ≤ |(-2 : ℚ) - (-4/5)|) ∧
      break_spline [5, 6] = ([5, 6] : List ℚ).getD 0 0 ∧
      break_spline [5, 6, 7] = ([5, 6, 7] : List ℚ).getD 1 0 :=
  ⟨⟨((break_spline_cases [-2, -1, 0, 1]).1 (by decide)).1,
      ((break_spline_cases [-2, -1, 0, 1]).1 (by decide)).2 (-2)
        (by norm_num)⟩,
    (break_spline_cases [5, 6]).2.1 rfl,
    (break_spline_cases [5, 6, 7]).2.2 rfl⟩

end TurbuStat
